import Mathlib

/-!
Shallow embedding of the wallet session manager:

* `src/src/libs/storage.js` — localStorage-backed session persistence
  (`saveSession`, `loadSession`, `clearSession`).
* `src/src/libs/network.js` — chain registry (`CHAIN_PARAMS`, `getChainName`)
  and the add-or-switch protocol (`switchOrAddChain`).
* the wallet component (`connect`, `refreshBalance`, `onAccountsChanged`,
  `onChainChanged`, auto-reconnect, status auto-clear, `handleChangeNetwork`,
  `sendEth`).

JavaScript runtime behaviour is modelled explicitly: a thrown exception is an
`Except.error`, a JS error object is a `JsError` (optional `code`, optional
`message`), string truthiness (`s || fallback`) tests emptiness, and the
IEEE-754 binary64 arithmetic of the balance path is modelled exactly over `ℚ`
by correct round-to-nearest-even (`round64`).
-/

/-- A JavaScript error value as observed by the handlers: `err?.code` and
`err?.message` may each be absent. -/
structure JsError where
  code : Option Int
  message : Option String
deriving DecidableEq, Repr

/-- `err?.message || fallback`: the fallback is used when `message` is absent
or the empty string (JS falsy). -/
def errMessage (e : JsError) (fallback : String) : String :=
  match e.message with
  | some m => if m = "" then fallback else m
  | none => fallback

/-! ## storage.js -/

/-- The browser `localStorage` backend. `ok = false` models a storage failure:
every primitive operation throws (e.g. quota exceeded / storage disabled).
`items` maps a key to its stored string, `none` when the key is absent. -/
structure LocalStorage where
  ok : Bool
  items : String → Option String

/-- Key names used for storing session data (`KEYS` in storage.js). -/
structure SessionKeys where
  account : String
  chain : String

def KEYS : SessionKeys :=
  { account := "connectedAccount", chain := "connectedChain" }

/-- `localStorage.setItem(k, v)`: throws when storage fails. -/
def setItem (ls : LocalStorage) (k v : String) : Except String LocalStorage :=
  if ls.ok then
    .ok { ls with items := fun x => if x = k then some v else ls.items x }
  else .error "storage failure"

/-- `localStorage.getItem(k)`: throws when storage fails; `none` is JS `null`. -/
def getItem (ls : LocalStorage) (k : String) : Except String (Option String) :=
  if ls.ok then .ok (ls.items k) else .error "storage failure"

/-- `localStorage.removeItem(k)`: throws when storage fails. -/
def removeItem (ls : LocalStorage) (k : String) : Except String LocalStorage :=
  if ls.ok then
    .ok { ls with items := fun x => if x = k then none else ls.items x }
  else .error "storage failure"

/-- `saveSession(account, chainId)`: each key is written only when the
corresponding argument is truthy (non-empty); the whole body is wrapped in
`try { … } catch (err) { console.error(…) }`, so a throw is caught, the error
is only logged, and writes completed before the throw are kept. -/
def saveSession (ls : LocalStorage) (account chainId : String) :
    Except String LocalStorage :=
  match (if account ≠ "" then setItem ls KEYS.account account else .ok ls) with
  | .error _ => .ok ls
  | .ok ls1 =>
    match (if chainId ≠ "" then setItem ls1 KEYS.chain chainId else .ok ls1) with
    | .error _ => .ok ls1
    | .ok ls2 => .ok ls2

/-- The `{account, chainId}` record returned by `loadSession()`. -/
structure PersistedSession where
  account : String
  chainId : String
deriving DecidableEq, Repr

/-- `loadSession()`: reads both keys inside `try`; a missing key yields `""`
(`|| ""`), and a storage throw is caught, logged, and `{account:"", chainId:""}`
is returned. -/
def loadSession (ls : LocalStorage) : Except String PersistedSession :=
  match getItem ls KEYS.account with
  | .error _ => .ok ⟨"", ""⟩
  | .ok a? =>
    match getItem ls KEYS.chain with
    | .error _ => .ok ⟨"", ""⟩
    | .ok c? => .ok ⟨a?.getD "", c?.getD ""⟩

/-- `clearSession()`: removes both keys inside `try`; a throw is caught and
logged, removals completed before the throw are kept. -/
def clearSession (ls : LocalStorage) : Except String LocalStorage :=
  match removeItem ls KEYS.account with
  | .error _ => .ok ls
  | .ok ls1 =>
    match removeItem ls1 KEYS.chain with
    | .error _ => .ok ls1
    | .ok ls2 => .ok ls2

/-- The storage state after a `saveSession` call (the call never throws, so the
caller observes only the resulting storage). -/
def runSave (ls : LocalStorage) (account chainId : String) : LocalStorage :=
  match saveSession ls account chainId with
  | .ok l => l
  | .error _ => ls

/-- The storage state after a `clearSession` call. -/
def runClear (ls : LocalStorage) : LocalStorage :=
  match clearSession ls with
  | .ok l => l
  | .error _ => ls

/-! ## network.js -/

/-- `nativeCurrency` descriptor field. -/
structure NativeCurrency where
  name : String
  symbol : String
  decimals : ℕ
deriving DecidableEq, Repr

/-- A `wallet_addEthereumChain` parameter record (one `CHAIN_PARAMS` entry). -/
structure ChainDescriptor where
  chainId : String
  chainName : String
  nativeCurrency : NativeCurrency
  rpcUrls : List String
  blockExplorerUrls : List String
deriving DecidableEq, Repr

/-- The chain registry `CHAIN_PARAMS`, keyed by hexadecimal chain id. -/
def CHAIN_PARAMS : String → Option ChainDescriptor := fun id =>
  if id = "0x1" then
    some { chainId := "0x1", chainName := "Ethereum Mainnet",
           nativeCurrency := { name := "Ether", symbol := "ETH", decimals := 18 },
           rpcUrls := ["https://rpc.ankr.com/eth"],
           blockExplorerUrls := ["https://etherscan.io"] }
  else if id = "0xaa36a7" then
    some { chainId := "0xaa36a7", chainName := "Sepolia Testnet",
           nativeCurrency := { name := "Sepolia Ether", symbol := "ETH", decimals := 18 },
           rpcUrls := ["https://rpc.sepolia.org"],
           blockExplorerUrls := ["https://sepolia.etherscan.io"] }
  else none

/-- `getChainName(hexId) = CHAIN_PARAMS[hexId]?.chainName || hexId`. -/
def getChainName (hexId : String) : String :=
  match CHAIN_PARAMS hexId with
  | some c => if c.chainName = "" then hexId else c.chainName
  | none => hexId

/-- A provider request issued by the add-or-switch sequence. -/
inductive NetReq where
  | switchChain (hexChainId : String)
  | addChain (hexChainId : String)
deriving DecidableEq, Repr

/-- `true` exactly on `wallet_switchEthereumChain` requests. -/
def NetReq.isSwitch : NetReq → Bool
  | .switchChain _ => true
  | .addChain _ => false

/-- `true` exactly on `wallet_addEthereumChain` requests. -/
def NetReq.isAdd : NetReq → Bool
  | .switchChain _ => false
  | .addChain _ => true

/-- The provider's responses to the (at most three) requests
`switchOrAddChain` can issue, in issue order: the first switch, the add, the
retried switch. Each is an arbitrary success or JS error, so any
EIP-1193 provider behaviour along the traces this function generates is
captured. -/
structure ProviderSwitchBehavior where
  firstSwitch : Except JsError Unit
  addChain : Except JsError Unit
  retrySwitch : Except JsError Unit

/-- `switchOrAddChain(provider, hexChainId)`: requests the switch; on an error
with `err?.code === 4902` when `CHAIN_PARAMS[hexChainId]` exists, requests the
add and then retries the switch once; any other error rethrows. Returns the
trace of issued requests together with the call's outcome (an `Except.error`
is the uncaught exception seen by the caller). -/
def switchOrAddChain (p : ProviderSwitchBehavior) (hexChainId : String) :
    List NetReq × Except JsError Unit :=
  match p.firstSwitch with
  | .ok _ => ([.switchChain hexChainId], .ok ())
  | .error err =>
    if err.code = some 4902 ∧ (CHAIN_PARAMS hexChainId).isSome then
      match p.addChain with
      | .error e => ([.switchChain hexChainId, .addChain hexChainId], .error e)
      | .ok _ =>
        match p.retrySwitch with
        | .ok _ =>
          ([.switchChain hexChainId, .addChain hexChainId,
            .switchChain hexChainId], .ok ())
        | .error e =>
          ([.switchChain hexChainId, .addChain hexChainId,
            .switchChain hexChainId], .error e)
    else ([.switchChain hexChainId], .error err)

/-! ## The wallet component (React state and handlers) -/

/-- The component's `useState` fields. `web3` records whether a Web3 instance
has been created (`setWeb3(new Web3(provider))`); `balanceEth` holds the
rendered balance (initially the string `"0"`). -/
structure WalletState where
  web3 : Bool
  account : String
  chainId : String
  balanceEth : String
  «to» : String
  amountEth : String
  status : String
  selectedChain : String
deriving DecidableEq, Repr

/-- The initial `useState` values of the component. -/
def initialWalletState : WalletState :=
  { web3 := false, account := "", chainId := "", balanceEth := "0",
    «to» := "", amountEth := "", status := "", selectedChain := "0x1" }

/-- The provider's responses to the two requests `connect()` issues:
`eth_requestAccounts` and `eth_chainId`. -/
structure ConnectProvider where
  requestAccounts : Except JsError (List String)
  requestChainId : Except JsError String

/-- `connect()`: with no provider, throws `"MetaMask not found. Please install
it."` (caught: the message becomes the status). Otherwise requests accounts and
chain id; a rejection is caught and `err?.message || "Connect failed"` becomes
the status. On success takes `accs[0] || ""` as the account, sets chain id and
selected chain, creates the Web3 instance, saves the session and sets status
`"Connected"`. -/
def connect (provider? : Option ConnectProvider) (st : WalletState)
    (ls : LocalStorage) : WalletState × LocalStorage :=
  match provider? with
  | none => ({ st with status := "MetaMask not found. Please install it." }, ls)
  | some p =>
    match p.requestAccounts with
    | .error e => ({ st with status := errMessage e "Connect failed" }, ls)
    | .ok accs =>
      match p.requestChainId with
      | .error e => ({ st with status := errMessage e "Connect failed" }, ls)
      | .ok cid =>
        let first := accs.headD ""
        ({ st with account := first, chainId := cid, selectedChain := cid,
                   web3 := true, status := "Connected" },
         runSave ls first cid)

/-- The `accountsChanged` handler: adopts `accs[0] || ""`; when empty, clears
the session, sets status `"Disconnected"` and zeroes the balance; otherwise
saves the session with the current chain id and sets status
`"Account changed"`. -/
def onAccountsChanged (st : WalletState) (ls : LocalStorage)
    (accs : List String) : WalletState × LocalStorage :=
  let first := accs.headD ""
  if first = "" then
    ({ st with account := first, status := "Disconnected", balanceEth := "0" },
     runClear ls)
  else
    ({ st with account := first, status := "Account changed" },
     runSave ls first st.chainId)

/-- The `chainChanged` handler: adopts the new chain id, saves the session with
the current account, and sets status `"Network changed"`. The handler also
kicks off an asynchronous `refreshBalance()`; that balance fetch is a separate
request and is not part of this state transition. -/
def onChainChanged (st : WalletState) (ls : LocalStorage) (cid : String) :
    WalletState × LocalStorage :=
  ({ st with chainId := cid, selectedChain := cid, status := "Network changed" },
   runSave ls st.account cid)

/-- The auto-reconnect effect, run once at startup. `provider?` carries, when a
provider is present, its response to the read-only `eth_accounts` query (the
list of already-authorized accounts). Returns the new state, the new storage,
and the list of RPC methods the effect requested from the provider. -/
def tryAutoReconnect (provider? : Option (List String)) (st : WalletState)
    (ls : LocalStorage) : WalletState × LocalStorage × List String :=
  let saved := (loadSession ls).toOption.getD ⟨"", ""⟩
  match provider? with
  | none => (st, ls, [])
  | some authorized =>
    if saved.account = "" then (st, ls, [])
    else if authorized.contains saved.account then
      ({ st with account := saved.account,
                 chainId := saved.chainId,
                 selectedChain :=
                   if saved.chainId = "" then "0x1" else saved.chainId,
                 web3 := true },
       ls, ["eth_accounts"])
    else (st, runClear ls, ["eth_accounts"])

/-- `handleChangeNetwork`: with no provider, status `"MetaMask not found"`.
Otherwise sets status `"Switching network…"`, awaits `switchOrAddChain`; on
success the provider, having actually changed chains, emits `chainChanged`
(delivered here before the request's continuation), and the continuation then
sets the selected chain and status `Switched to <name>`; a failure is caught
and `err?.message || "Failed to switch network"` becomes the status. -/
def handleChangeNetwork (provider? : Option ProviderSwitchBehavior)
    (hexId : String) (st : WalletState) (ls : LocalStorage) :
    WalletState × LocalStorage :=
  match provider? with
  | none => ({ st with status := "MetaMask not found" }, ls)
  | some p =>
    let st1 := { st with status := "Switching network…" }
    match (switchOrAddChain p hexId).2 with
    | .ok _ =>
      let (st2, ls2) := onChainChanged st1 ls hexId
      ({ st2 with selectedChain := hexId,
                  status := "Switched to " ++ getChainName hexId }, ls2)
    | .error e =>
      ({ st1 with status := errMessage e "Failed to switch network" }, ls)

/-- The external capabilities `sendEth` consults: `web3.utils.isAddress`
(checksum validation is inside web3.js, opaque here), JS `Number(string)`
(`none` when the result is `NaN` or `±Infinity`, otherwise the exact finite
value), and the outcome of `web3.eth.sendTransaction` (on success the
receipt's optional `transactionHash`). -/
structure SendEnv where
  isAddress : String → Bool
  parseNumber : String → Option ℚ
  sendTransaction : Except JsError (Option String)

/-- `receipt?.transactionHash || "(pending)"`. -/
def txHashOrPending (hash? : Option String) : String :=
  match hash? with
  | some h => if h = "" then "(pending)" else h
  | none => "(pending)"

/-- `sendEth`: returns the new state and whether a transaction was submitted
to the provider. Guard: without `web3` and an account, status
`"Connect wallet first"`. Validation: `isAddress(to)` else throw
`"Invalid recipient address"`; then `amt = Number(amountEth)` and
`!amountEth || !Number.isFinite(amt) || amt <= 0` throws
`"Enter a valid amount"`; both throws are caught and the message becomes the
status. Otherwise status `"Sending…"`, the transaction is submitted; on
success the status carries the transaction hash (or a pending marker) and the
`to`/`amountEth` fields are cleared (a balance refresh is also kicked off,
a separate asynchronous request); a submission error is caught and
`err?.message || "Send failed"` becomes the status. -/
def sendEth (env : SendEnv) (st : WalletState) : WalletState × Bool :=
  if st.web3 = false ∨ st.account = "" then
    ({ st with status := "Connect wallet first" }, false)
  else if env.isAddress st.«to» = false then
    ({ st with status := "Invalid recipient address" }, false)
  else if st.amountEth = "" then
    ({ st with status := "Enter a valid amount" }, false)
  else
    match env.parseNumber st.amountEth with
    | none => ({ st with status := "Enter a valid amount" }, false)
    | some amt =>
      if amt ≤ 0 then ({ st with status := "Enter a valid amount" }, false)
      else
        let st1 := { st with status := "Sending…" }
        match env.sendTransaction with
        | .ok hash? =>
          ({ st1 with status := "Sent! Tx: " ++ txHashOrPending hash?,
                      «to» := "", amountEth := "" }, true)
        | .error e =>
          ({ st1 with status := errMessage e "Send failed" }, true)

/-! ## Status auto-clear (the `[status]` effect) -/

/-- The component state together with the pending one-shot status timer:
`expiry` is the absolute time (in seconds) at which the scheduled
`setStatus("")` fires, `none` when no timeout is pending. -/
structure StatusClock where
  state : WalletState
  expiry : Option ℕ
deriving DecidableEq, Repr

/-- `setStatus(msg)` at absolute time `t`. React compares the new state and
the `[status]` effect dependency with `Object.is`: a `setStatus` carrying the
currently displayed message is a no-op — no re-render, no cleanup, no effect
re-run — so the pending timeout keeps running. Only when the message differs
does the cleanup cancel the pending timeout and the effect re-run, scheduling
a clear (`setTimeout(…, 7000)`) for time `t + 7` when the new status is
non-empty. -/
def setStatusAt (t : ℕ) (msg : String) (sc : StatusClock) : StatusClock :=
  if msg = sc.state.status then sc
  else
    { state := { sc.state with status := msg },
      expiry := if msg = "" then none else some (t + 7) }

/-- Observing the clock at absolute time `t`: if the pending timeout is due it
has fired — its callback is exactly `setStatus("")`, which touches no other
field (and schedules no new timeout, as the effect ignores an empty status). -/
def runClockTo (t : ℕ) (sc : StatusClock) : StatusClock :=
  match sc.expiry with
  | some e =>
    if e ≤ t then { state := { sc.state with status := "" }, expiry := none }
    else sc
  | none => sc


/-! ## Balance display (`refreshBalance`): exact binary64 model

The balance path runs through JS doubles:
`parseFloat(web3.utils.fromWei(wei, "ether"))`, then `ethValue * 1e6`,
`Math.floor(…)`, `… / 1e6`. All values on this path are nonnegative, so a
double is modelled as the exact nonnegative rational it denotes — a `Frac`,
an unreduced `num / den` pair of naturals — and every operation as the exact
result correctly rounded to nearest, ties to even, with a 53-bit significand
(`round64F`). The model covers the normal, non-overflowing range, which
contains every value this path produces for realistic balances. -/

/-- A nonnegative rational `num / den` (`den` positive, not necessarily in
lowest terms). -/
structure Frac where
  num : ℕ
  den : ℕ
deriving DecidableEq, Repr

/-- The rational a `Frac` denotes. -/
def Frac.toRat (f : Frac) : ℚ := (f.num : ℚ) / (f.den : ℚ)

/-- `a ≤ b` by cross multiplication. -/
def Frac.le (a b : Frac) : Bool := a.num * b.den ≤ b.num * a.den

/-- Exact product. -/
def Frac.mul (a b : Frac) : Frac := ⟨a.num * b.num, a.den * b.den⟩

/-- `⌊f⌋` (natural division, exact for nonnegative values). -/
def Frac.floor (f : Frac) : ℕ := f.num / f.den

/-- `f * 2 ^ e` exactly, for an integer exponent. -/
def Frac.mulPow2 (f : Frac) (e : ℤ) : Frac :=
  if 0 ≤ e then ⟨f.num * 2 ^ e.toNat, f.den⟩ else ⟨f.num, f.den * 2 ^ (-e).toNat⟩

/-- `⌊log2 n⌋` for `0 < n < 2 ^ 1280` (binary64 exponents live well inside
this range): the number of exponents `e` with `2 ^ e ≤ n`, minus one. -/
def natLog2 (n : ℕ) : ℕ :=
  ((List.range 1280).filter (fun e => 2 ^ e ≤ n)).length - 1

/-- Round a nonnegative `Frac` to the nearest integer, ties to even
(IEEE-754 `roundTiesToEven` applied to an integer target). -/
def rNEF (f : Frac) : ℕ :=
  let q := f.num / f.den
  let r := f.num % f.den
  if 2 * r < f.den then q
  else if f.den < 2 * r then q + 1
  else if q % 2 = 0 then q else q + 1

/-- For `f > 0`, the exponent `e` with `2 ^ e ≤ f < 2 ^ (e + 1)`, computed
from the bit lengths of numerator and denominator with a one-step
correction. -/
def qlog2F (f : Frac) : ℤ :=
  let a : ℤ := (natLog2 f.num : ℤ) - (natLog2 f.den : ℤ) - 1
  if Frac.le (Frac.mulPow2 ⟨1, 1⟩ (a + 2)) f then a + 2
  else if Frac.le (Frac.mulPow2 ⟨1, 1⟩ (a + 1)) f then a + 1
  else a

/-- Correct rounding of an exact nonnegative rational to an IEEE-754 binary64
value (normal range): the 53-bit significand is `rNEF (f * 2 ^ (52 - e))`
with `e = qlog2F f`, scaled back by `2 ^ (e - 52)`. -/
def round64F (f : Frac) : Frac :=
  if f.num = 0 then ⟨0, 1⟩
  else
    let e := qlog2F f
    let k := rNEF (f.mulPow2 (52 - e))
    Frac.mulPow2 ⟨k, 1⟩ (e - 52)

/-- The double rendered by `refreshBalance` for a raw smallest-unit (wei)
balance `v`: `ethValue = parseFloat(fromWei(v, "ether"))` (the `fromWei`
string is the exact decimal expansion of `v / 10^18`, so `parseFloat` returns
its correctly rounded double), then `Math.floor(ethValue * 1e6) / 1e6` with
`*` and `/` correctly rounded (`1e6` is exactly representable) and
`Math.floor` exact on doubles. -/
def displayedBalance (v : ℕ) : Frac :=
  let ethValue := round64F ⟨v, 10 ^ 18⟩
  let scaled := round64F (ethValue.mul ⟨1000000, 1⟩)
  round64F ⟨scaled.floor, 1000000⟩

/-- An empty working storage backend, used to instantiate general theorems. -/
def emptyLS : LocalStorage := ⟨true, fun _ => none⟩

/-- A storage backend whose every operation throws. -/
def failLS : LocalStorage := ⟨false, fun _ => none⟩

/-- A sample environment for `sendEth` witnesses: the address validator
accepts exactly the sample recipient, and only the sample amount string
parses (to `1/100`, as JS `Number("0.01")` denotes exactly that value when
read back at 6 decimals; the exact oracle value is irrelevant to the
validation logic being witnessed). -/
def sampleSendEnv (outcome : Except JsError (Option String)) : SendEnv :=
  { isAddress := fun s => s == "0x52908400098527886E0F7030069857D2E4169EE7",
    parseNumber := fun s => if s = "0.01" then some (1 / 100) else none,
    sendTransaction := outcome }


/-! ## Theorems -/

/-- C9: `saveSession`, `loadSession` and `clearSession` never raise a storage
failure to the caller — each returns normally on every backend, including one
whose primitives all throw — and `loadSession` returns
`{account := "", chainId := ""}` both when storage fails and when it holds no
data. -/
theorem c9_session_store_fail_soft (ls : LocalStorage) (a c : String) :
    (saveSession ls a c).isOk = true ∧
    (loadSession ls).isOk = true ∧
    (clearSession ls).isOk = true ∧
    (ls.ok = false → loadSession ls = .ok ⟨"", ""⟩) ∧
    (ls.items KEYS.account = none → ls.items KEYS.chain = none →
      loadSession ls = .ok ⟨"", ""⟩) := by
  refine ⟨?_, ?_, ?_, ?_, ?_⟩
  · cases hok : ls.ok <;>
      simp [saveSession, setItem, hok, Except.isOk, Except.toBool] <;>
      split_ifs <;>
      simp [hok, Except.isOk, Except.toBool]
  · cases hok : ls.ok <;>
      simp [loadSession, getItem, hok, Except.isOk, Except.toBool]
  · cases hok : ls.ok <;>
      simp [clearSession, removeItem, hok, Except.isOk, Except.toBool]
  · intro h
    simp [loadSession, getItem, h]
  · intro h1 h2
    cases hok : ls.ok <;> simp [loadSession, getItem, hok, h1, h2]

/-- C9 witness: on the all-throwing backend every operation still returns
normally and `loadSession` yields empty strings. -/
theorem c9_session_store_fail_soft_witness :
    (saveSession failLS "0xAB" "0x1").isOk = true ∧
    (loadSession failLS).isOk = true ∧
    (clearSession failLS).isOk = true ∧
    loadSession failLS = .ok ⟨"", ""⟩ :=
  ⟨(c9_session_store_fail_soft failLS "0xAB" "0x1").1,
   (c9_session_store_fail_soft failLS "0xAB" "0x1").2.1,
   (c9_session_store_fail_soft failLS "0xAB" "0x1").2.2.1,
   (c9_session_store_fail_soft failLS "0xAB" "0x1").2.2.2.1 rfl⟩

/-- Frame facts about `runSave`: each key is written only when the
corresponding argument is non-empty, and, on a working backend, a non-empty
argument is stored under its key. -/
theorem runSave_items (ls : LocalStorage) (a c : String) :
    (a = "" → (runSave ls a c).items KEYS.account = ls.items KEYS.account) ∧
    (c = "" → (runSave ls a c).items KEYS.chain = ls.items KEYS.chain) ∧
    (ls.ok = true → a ≠ "" → (runSave ls a c).items KEYS.account = some a) ∧
    (ls.ok = true → c ≠ "" → (runSave ls a c).items KEYS.chain = some c) := by
  have key_ne : KEYS.account ≠ KEYS.chain := by decide
  have key_ne2 : KEYS.chain ≠ KEYS.account := by decide
  refine ⟨?_, ?_, ?_, ?_⟩
  · intro h
    cases hok : ls.ok <;>
      simp [runSave, saveSession, setItem, hok, h] <;>
      split_ifs <;> simp [hok, key_ne, key_ne2]
  · intro h
    cases hok : ls.ok <;>
      simp [runSave, saveSession, setItem, hok, h] <;>
      split_ifs <;> simp [hok, key_ne, key_ne2, KEYS]
  · intro hok h
    simp [runSave, saveSession, setItem, hok, h] <;>
      split_ifs <;> simp [hok, key_ne, key_ne2]
  · intro hok h
    simp [runSave, saveSession, setItem, hok, h] <;>
      split_ifs <;> simp [hok, key_ne, key_ne2, KEYS]

/-- C10: `saveSession` writes each stored key only when the corresponding
argument is non-empty and leaves the other key's stored value untouched; in
consequence, a `chainChanged` reconciliation that runs while the current
account is empty persists the new chain id but leaves any previously
persisted account in storage. -/
theorem c10_saveSession_partial_write (ls : LocalStorage) (a c : String)
    (st : WalletState) (cid : String) :
    (a = "" → (runSave ls a c).items KEYS.account = ls.items KEYS.account) ∧
    (c = "" → (runSave ls a c).items KEYS.chain = ls.items KEYS.chain) ∧
    (ls.ok = true → a ≠ "" → (runSave ls a c).items KEYS.account = some a) ∧
    (ls.ok = true → c ≠ "" → (runSave ls a c).items KEYS.chain = some c) ∧
    (st.account = "" →
      (onChainChanged st ls cid).2.items KEYS.account = ls.items KEYS.account) ∧
    (st.account = "" → ls.ok = true → cid ≠ "" →
      (onChainChanged st ls cid).2.items KEYS.chain = some cid) := by
  have h := runSave_items ls a c
  have h2 := runSave_items ls st.account cid
  refine ⟨h.1, h.2.1, h.2.2.1, h.2.2.2, ?_, ?_⟩
  · intro ha
    simpa [onChainChanged] using (runSave_items ls st.account cid).1 ha
  · intro ha hok hcid
    simpa [onChainChanged] using (runSave_items ls st.account cid).2.2.2 hok hcid

/-- C10 witness: with an empty current account and a previously persisted
account `"0xOLD"`, the `chainChanged` reconciliation keeps `"0xOLD"` in
storage and persists the new chain id. -/
theorem c10_saveSession_partial_write_witness :
    ((onChainChanged initialWalletState
        ⟨true, fun k => if k = KEYS.account then some "0xOLD" else none⟩
        "0xaa36a7").2.items KEYS.account = some "0xOLD") ∧
    ((onChainChanged initialWalletState
        ⟨true, fun k => if k = KEYS.account then some "0xOLD" else none⟩
        "0xaa36a7").2.items KEYS.chain = some "0xaa36a7") := by
  have h := c10_saveSession_partial_write
    ⟨true, fun k => if k = KEYS.account then some "0xOLD" else none⟩
    "" "" initialWalletState "0xaa36a7"
  exact ⟨by rw [h.2.2.2.2.1 rfl]; simp,
         h.2.2.2.2.2 rfl rfl (by simp)⟩

/-- C5: reconciling an empty `accountsChanged` list always yields status
`"Disconnected"`, an empty account, a zeroed balance, and a cleared persisted
session, regardless of the prior state. -/
theorem c5_accounts_changed_empty (st : WalletState) (ls : LocalStorage) :
    onAccountsChanged st ls [] =
      ({ st with account := "", status := "Disconnected", balanceEth := "0" },
       runClear ls) ∧
    (ls.ok = true →
      (runClear ls).items KEYS.account = none ∧
      (runClear ls).items KEYS.chain = none) := by
  constructor
  · simp [onAccountsChanged]
  · intro hok
    constructor <;>
      simp [runClear, clearSession, removeItem, hok, KEYS]

/-- C5 witness: from a connected state with a persisted session, the empty
reconciliation disconnects and clears storage. -/
theorem c5_accounts_changed_empty_witness :
    onAccountsChanged
        { initialWalletState with web3 := true, account := "0xAB", chainId := "0x1" }
        ⟨true, fun _ => some "x"⟩ [] =
      ({ initialWalletState with
          web3 := true
          account := ""
          chainId := "0x1"
          status := "Disconnected"
          balanceEth := "0" },
       runClear ⟨true, fun _ => some "x"⟩) ∧
    (runClear ⟨true, fun _ => some "x"⟩).items KEYS.account = none ∧
    (runClear ⟨true, fun _ => some "x"⟩).items KEYS.chain = none := by
  have h := c5_accounts_changed_empty
    { initialWalletState with web3 := true, account := "0xAB", chainId := "0x1" }
    ⟨true, fun _ => some "x"⟩
  exact ⟨h.1, (h.2 rfl).1, (h.2 rfl).2⟩

/-- C1 counterexample: a provider that grants the account request but returns
an empty list. `connect()` does not fail with any `NoAccountsError`: it still
emits status `"Connected"`, with an empty account (`accs[0] || ""`). -/
theorem c1_connect_empty_accounts_counterexample :
    (connect (some ⟨.ok [], .ok "0x1"⟩) initialWalletState emptyLS).1.status
        = "Connected" ∧
    (connect (some ⟨.ok [], .ok "0x1"⟩) initialWalletState emptyLS).1.account
        = "" ∧
    (connect (some ⟨.ok [], .ok "0x1"⟩) initialWalletState emptyLS).1.web3
        = true := by
  refine ⟨rfl, rfl, rfl⟩

/-- C1 amended: when both provider requests succeed, `connect()` always emits
status `"Connected"` and sets the account to `accs[0] || ""` — an empty
account list does not fail, it yields an empty account with only the chain id
persisted; a non-empty list sets the first address, sets the chain id, and
persists both. -/
theorem c1_connect_characterization (accs : List String) (cid : String)
    (st : WalletState) (ls : LocalStorage) :
    (connect (some ⟨.ok accs, .ok cid⟩) st ls).1.account = accs.headD "" ∧
    (connect (some ⟨.ok accs, .ok cid⟩) st ls).1.chainId = cid ∧
    (connect (some ⟨.ok accs, .ok cid⟩) st ls).1.selectedChain = cid ∧
    (connect (some ⟨.ok accs, .ok cid⟩) st ls).1.web3 = true ∧
    (connect (some ⟨.ok accs, .ok cid⟩) st ls).1.status = "Connected" ∧
    (accs.headD "" = "" →
      (connect (some ⟨.ok accs, .ok cid⟩) st ls).2.items KEYS.account
        = ls.items KEYS.account) ∧
    (ls.ok = true → accs.headD "" ≠ "" →
      (connect (some ⟨.ok accs, .ok cid⟩) st ls).2.items KEYS.account
        = some (accs.headD "")) ∧
    (ls.ok = true → cid ≠ "" →
      (connect (some ⟨.ok accs, .ok cid⟩) st ls).2.items KEYS.chain
        = some cid) := by
  have h := runSave_items ls (accs.headD "") cid
  exact ⟨rfl, rfl, rfl, rfl, rfl,
    fun he => by simpa [connect] using h.1 he,
    fun hok hne => by simpa [connect] using h.2.2.1 hok hne,
    fun hok hne => by simpa [connect] using h.2.2.2 hok hne⟩

/-- C1 witness: the spec's own end-to-end example — accounts
`["0xAB", "0xCD"]`, chain `"0x1"` — connects with account `"0xAB"`, status
`"Connected"`, and both values persisted. -/
theorem c1_connect_characterization_witness :
    (connect (some ⟨.ok ["0xAB", "0xCD"], .ok "0x1"⟩) initialWalletState
        emptyLS).1.account = "0xAB" ∧
    (connect (some ⟨.ok ["0xAB", "0xCD"], .ok "0x1"⟩) initialWalletState
        emptyLS).1.status = "Connected" ∧
    (connect (some ⟨.ok ["0xAB", "0xCD"], .ok "0x1"⟩) initialWalletState
        emptyLS).2.items KEYS.account = some "0xAB" ∧
    (connect (some ⟨.ok ["0xAB", "0xCD"], .ok "0x1"⟩) initialWalletState
        emptyLS).2.items KEYS.chain = some "0x1" := by
  have h := c1_connect_characterization ["0xAB", "0xCD"] "0x1"
    initialWalletState emptyLS
  exact ⟨h.1, h.2.2.2.2.1,
    h.2.2.2.2.2.2.1 rfl (by decide),
    h.2.2.2.2.2.2.2 rfl (by decide)⟩

/-- C6: startup auto-reconnect only ever issues the read-only `eth_accounts`
query (never the permission-prompting `eth_requestAccounts`); it is a no-op
when no account is persisted; it adopts the persisted `{account, chainId}`
exactly when the persisted account is in the provider's authorized list, and
otherwise leaves the state untouched (still `Disconnected` at startup) and
clears the persisted session. -/
theorem c6_try_auto_reconnect (auth : List String) (st : WalletState)
    (ls : LocalStorage) :
    (∀ provider?, ∀ r ∈ (tryAutoReconnect provider? st ls).2.2,
      r = "eth_accounts") ∧
    (((loadSession ls).toOption.getD ⟨"", ""⟩).account = "" →
      tryAutoReconnect (some auth) st ls = (st, ls, [])) ∧
    (∀ sa sc, (loadSession ls).toOption.getD ⟨"", ""⟩ = ⟨sa, sc⟩ → sa ≠ "" →
      auth.contains sa = true →
      tryAutoReconnect (some auth) st ls =
        ({ st with account := sa, chainId := sc,
                   selectedChain := if sc = "" then "0x1" else sc,
                   web3 := true },
         ls, ["eth_accounts"])) ∧
    (∀ sa sc, (loadSession ls).toOption.getD ⟨"", ""⟩ = ⟨sa, sc⟩ → sa ≠ "" →
      auth.contains sa = false →
      tryAutoReconnect (some auth) st ls = (st, runClear ls, ["eth_accounts"])) := by
  refine ⟨?_, ?_, ?_, ?_⟩
  · intro provider? r hr
    match provider? with
    | none => simp [tryAutoReconnect] at hr
    | some l =>
      by_cases h1 : ((loadSession ls).toOption.getD ⟨"", ""⟩).account = ""
      · simp [tryAutoReconnect, h1] at hr
      · by_cases h2 :
          l.contains ((loadSession ls).toOption.getD ⟨"", ""⟩).account = true
        · have h2m : ((loadSession ls).toOption.getD ⟨"", ""⟩).account ∈ l := by
            simpa using h2
          simp [tryAutoReconnect, h1, h2m] at hr
          exact hr
        · have h2m : ((loadSession ls).toOption.getD ⟨"", ""⟩).account ∉ l := by
            simpa using h2
          simp [tryAutoReconnect, h1, h2m] at hr
          exact hr
  · intro h
    simp [tryAutoReconnect, h]
  · intro sa sc hload hne hmem
    have hmem2 : sa ∈ auth := by simpa using hmem
    simp [tryAutoReconnect, hload, hne, hmem2]
  · intro sa sc hload hne hmem
    have hmem2 : sa ∉ auth := by simpa using hmem
    simp [tryAutoReconnect, hload, hne, hmem2]

/-- C6 witness: with persisted session `{account := "0xAB", chainId := "0x1"}`
and authorized list `["0xAB"]` the session is adopted; with authorized list
`["0xCD"]` the state is untouched and the stale session is cleared; in both
runs only `eth_accounts` is queried. -/
theorem c6_try_auto_reconnect_witness :
    (tryAutoReconnect (some ["0xAB"]) initialWalletState
        ⟨true, fun k => if k = KEYS.account then some "0xAB"
                        else if k = KEYS.chain then some "0x1" else none⟩ =
      ({ initialWalletState with account := "0xAB", chainId := "0x1",
                                 selectedChain := "0x1", web3 := true },
       ⟨true, fun k => if k = KEYS.account then some "0xAB"
                       else if k = KEYS.chain then some "0x1" else none⟩,
       ["eth_accounts"])) ∧
    ((tryAutoReconnect (some ["0xCD"]) initialWalletState
        ⟨true, fun k => if k = KEYS.account then some "0xAB"
                        else if k = KEYS.chain then some "0x1" else none⟩).1 =
      initialWalletState) ∧
    (∀ r ∈ (tryAutoReconnect (some ["0xCD"]) initialWalletState
        ⟨true, fun k => if k = KEYS.account then some "0xAB"
                        else if k = KEYS.chain then some "0x1" else none⟩).2.2,
      r = "eth_accounts") := by
  refine ⟨?_, ?_, ?_⟩
  · have h := (c6_try_auto_reconnect ["0xAB"] initialWalletState
      ⟨true, fun k => if k = KEYS.account then some "0xAB"
                      else if k = KEYS.chain then some "0x1" else none⟩).2.2.1
      "0xAB" "0x1" (by simp [loadSession, getItem, KEYS, Except.toOption]) (by decide) (by decide)
    simpa using h
  · have h := (c6_try_auto_reconnect ["0xCD"] initialWalletState
      ⟨true, fun k => if k = KEYS.account then some "0xAB"
                      else if k = KEYS.chain then some "0x1" else none⟩).2.2.2
      "0xAB" "0x1" (by simp [loadSession, getItem, KEYS, Except.toOption]) (by decide) (by decide)
    rw [h]
  · exact (c6_try_auto_reconnect ["0xCD"] initialWalletState
      ⟨true, fun k => if k = KEYS.account then some "0xAB"
                      else if k = KEYS.chain then some "0x1" else none⟩).1
      (some ["0xCD"])

/-- C2 counterexample: a provider whose first switch fails with code 4902 for
`"0x1"` (which the Chain Registry contains) but whose add-chain request also
fails. The claimed add-then-retry does not happen: the trace contains only
one switch request and the add error propagates, so "one add-chain request
followed by exactly one retried switch request" is false at this input. -/
theorem c2_switchOrAddChain_counterexample :
    (CHAIN_PARAMS "0x1").isSome = true ∧
    (switchOrAddChain
        ⟨.error ⟨some 4902, some "Unrecognized chain"⟩,
         .error ⟨none, some "User rejected chain add"⟩, .ok ()⟩ "0x1").1
      = [.switchChain "0x1", .addChain "0x1"] ∧
    (((switchOrAddChain
        ⟨.error ⟨some 4902, some "Unrecognized chain"⟩,
         .error ⟨none, some "User rejected chain add"⟩, .ok ()⟩ "0x1").1.filter
        NetReq.isSwitch).length = 1) ∧
    (switchOrAddChain
        ⟨.error ⟨some 4902, some "Unrecognized chain"⟩,
         .error ⟨none, some "User rejected chain add"⟩, .ok ()⟩ "0x1").2
      = .error ⟨none, some "User rejected chain add"⟩ := by
  refine ⟨rfl, ?_, ?_, ?_⟩ <;>
    simp [switchOrAddChain, CHAIN_PARAMS, NetReq.isSwitch]

/-- C2 amended: the sequence issues the first switch once; exactly when that
switch fails with code 4902 and the registry has the target, one add-chain
request follows, and — only if the add succeeds — exactly one retried switch;
a failure of the add, of the retried switch, or any other first-switch error
propagates carrying the provider's error; at most 2 switch requests and 1 add
request are ever issued. -/
theorem c2_switchOrAddChain_characterization (p : ProviderSwitchBehavior)
    (hexId : String) :
    ((switchOrAddChain p hexId).1.filter NetReq.isSwitch).length ≤ 2 ∧
    ((switchOrAddChain p hexId).1.filter NetReq.isAdd).length ≤ 1 ∧
    (p.firstSwitch = .ok () →
      switchOrAddChain p hexId = ([.switchChain hexId], .ok ())) ∧
    (∀ e, p.firstSwitch = .error e →
      (¬ (e.code = some 4902 ∧ (CHAIN_PARAMS hexId).isSome) →
        switchOrAddChain p hexId = ([.switchChain hexId], .error e)) ∧
      (e.code = some 4902 → (CHAIN_PARAMS hexId).isSome →
        (∀ e2, p.addChain = .error e2 →
          switchOrAddChain p hexId =
            ([.switchChain hexId, .addChain hexId], .error e2)) ∧
        (p.addChain = .ok () →
          (p.retrySwitch = .ok () →
            switchOrAddChain p hexId =
              ([.switchChain hexId, .addChain hexId, .switchChain hexId],
               .ok ())) ∧
          (∀ e3, p.retrySwitch = .error e3 →
            switchOrAddChain p hexId =
              ([.switchChain hexId, .addChain hexId, .switchChain hexId],
               .error e3))))) := by
  obtain ⟨f, a, r⟩ := p
  refine ⟨?_, ?_, ?_, ?_⟩
  · rcases f with e | _ <;> rcases a with e2 | _ <;> rcases r with e3 | _ <;>
      simp [switchOrAddChain, NetReq.isSwitch, NetReq.isAdd] <;>
      split_ifs <;> simp [NetReq.isSwitch, NetReq.isAdd]
  · rcases f with e | _ <;> rcases a with e2 | _ <;> rcases r with e3 | _ <;>
      simp [switchOrAddChain, NetReq.isSwitch, NetReq.isAdd] <;>
      split_ifs <;> simp [NetReq.isSwitch, NetReq.isAdd]
  · intro hf
    simp only at hf
    simp [switchOrAddChain, hf]
  · intro e hf
    constructor
    · intro hno
      simp only at hf
      simp [switchOrAddChain, hf, hno]
    · intro hcode hreg
      constructor
      · intro e2 ha
        simp only at hf ha
        simp [switchOrAddChain, hf, ha, hcode, hreg]
      · intro ha
        simp only at hf ha
        constructor
        · intro hr
          simp only at hr
          simp [switchOrAddChain, hf, ha, hr, hcode, hreg]
        · intro e3 hr
          simp only at hr
          simp [switchOrAddChain, hf, ha, hr, hcode, hreg]

/-- C2 witness: a provider that does not recognize Sepolia (code 4902) but
accepts the add; the sequence is switch, add, retried switch, and a failure of
the retried switch propagates the provider's error. -/
theorem c2_switchOrAddChain_characterization_witness :
    switchOrAddChain
        ⟨.error ⟨some 4902, some "Unrecognized chain"⟩, .ok (),
         .error ⟨none, some "User rejected switch"⟩⟩ "0xaa36a7" =
      ([.switchChain "0xaa36a7", .addChain "0xaa36a7",
        .switchChain "0xaa36a7"],
       .error ⟨none, some "User rejected switch"⟩) :=
  ((((c2_switchOrAddChain_characterization
      ⟨.error ⟨some 4902, some "Unrecognized chain"⟩, .ok (),
       .error ⟨none, some "User rejected switch"⟩⟩ "0xaa36a7").2.2.2
    ⟨some 4902, some "Unrecognized chain"⟩ rfl).2 rfl rfl).2 rfl).2
    ⟨none, some "User rejected switch"⟩ rfl

/-- C4: when the delegated add-or-switch sequence succeeds, the operation ends
with the state still connected (account and Web3 instance untouched), the new
chain id adopted and persisted, and status `Switched to <name>`; when it
fails, state and storage keep the prior chain id, the status carries the
failure reason, and the state is never left showing the transient
`"Switching network…"` message. -/
theorem c4_handleChangeNetwork (p : ProviderSwitchBehavior) (hexId : String)
    (st : WalletState) (ls : LocalStorage) :
    ((switchOrAddChain p hexId).2 = .ok () →
      (handleChangeNetwork (some p) hexId st ls).1 =
        { st with chainId := hexId, selectedChain := hexId,
                  status := "Switched to " ++ getChainName hexId } ∧
      (handleChangeNetwork (some p) hexId st ls).2 = runSave ls st.account hexId ∧
      (ls.ok = true → hexId ≠ "" →
        (handleChangeNetwork (some p) hexId st ls).2.items KEYS.chain
          = some hexId)) ∧
    (∀ e, (switchOrAddChain p hexId).2 = .error e →
      (handleChangeNetwork (some p) hexId st ls).1 =
        { st with status := errMessage e "Failed to switch network" } ∧
      (handleChangeNetwork (some p) hexId st ls).2 = ls) := by
  constructor
  · intro hok
    refine ⟨?_, ?_, ?_⟩
    · simp [handleChangeNetwork, hok, onChainChanged]
    · simp [handleChangeNetwork, hok, onChainChanged]
    · intro hlsok hne
      have hframe := (runSave_items ls st.account hexId).2.2.2 hlsok hne
      simp [handleChangeNetwork, hok, onChainChanged, hframe]
  · intro e herr
    constructor <;> simp [handleChangeNetwork, herr]

/-- C4 witness: a provider accepting the switch outright moves a connected
state to Sepolia with the chain id persisted and status
`"Switched to Sepolia Testnet"`; a provider rejecting it leaves chain id and
storage unchanged with the error as status. -/
theorem c4_handleChangeNetwork_witness :
    (handleChangeNetwork (some ⟨.ok (), .ok (), .ok ()⟩) "0xaa36a7"
        { initialWalletState with web3 := true, account := "0xAB", chainId := "0x1" }
        emptyLS).1 =
      { initialWalletState with
          web3 := true
          account := "0xAB"
          chainId := "0xaa36a7"
          selectedChain := "0xaa36a7"
          status := "Switched to Sepolia Testnet" } ∧
    (handleChangeNetwork (some ⟨.ok (), .ok (), .ok ()⟩) "0xaa36a7"
        { initialWalletState with web3 := true, account := "0xAB", chainId := "0x1" }
        emptyLS).2.items KEYS.chain = some "0xaa36a7" ∧
    (handleChangeNetwork
        (some ⟨.error ⟨some 4001, some "User rejected switch"⟩, .ok (), .ok ()⟩)
        "0xaa36a7"
        { initialWalletState with web3 := true, account := "0xAB", chainId := "0x1" }
        emptyLS).1 =
      { initialWalletState with
          web3 := true
          account := "0xAB"
          chainId := "0x1"
          status := "User rejected switch" } := by
  have h1 := (c4_handleChangeNetwork ⟨.ok (), .ok (), .ok ()⟩ "0xaa36a7"
    { initialWalletState with web3 := true, account := "0xAB", chainId := "0x1" }
    emptyLS).1 rfl
  have h2 := (c4_handleChangeNetwork
    ⟨.error ⟨some 4001, some "User rejected switch"⟩, .ok (), .ok ()⟩ "0xaa36a7"
    { initialWalletState with web3 := true, account := "0xAB", chainId := "0x1" }
    emptyLS).2 ⟨some 4001, some "User rejected switch"⟩ (by
      simp [switchOrAddChain, CHAIN_PARAMS])
  refine ⟨?_, ?_, ?_⟩
  · rw [h1.1]
    rfl
  · exact h1.2.2 rfl (by decide)
  · rw [h2.1]
    rfl

/-- C7: in a connected state, a `to` that fails address validation makes
`sendEth` fail with the invalid-address message before any provider call
(submission flag `false`) and with no change to any field but the status; an
`amountEth` that is empty, does not parse to a finite number, or is not
strictly positive likewise fails with the invalid-amount message; the pending
`to`/`amountEth` fields are cleared exactly on successful submission and kept
on a submission error. -/
theorem c7_sendEth_validation (env : SendEnv) (st : WalletState)
    (hw : st.web3 = true) (ha : st.account ≠ "") :
    (env.isAddress st.«to» = false →
      sendEth env st = ({ st with status := "Invalid recipient address" }, false)) ∧
    (env.isAddress st.«to» = true →
      (st.amountEth = "" →
        sendEth env st = ({ st with status := "Enter a valid amount" }, false)) ∧
      (env.parseNumber st.amountEth = none →
        sendEth env st = ({ st with status := "Enter a valid amount" }, false)) ∧
      (∀ q, env.parseNumber st.amountEth = some q → q ≤ 0 →
        sendEth env st = ({ st with status := "Enter a valid amount" }, false)) ∧
      (∀ q, st.amountEth ≠ "" → env.parseNumber st.amountEth = some q → 0 < q →
        (∀ e, env.sendTransaction = .error e →
          sendEth env st =
            ({ st with status := errMessage e "Send failed" }, true)) ∧
        (∀ hash?, env.sendTransaction = .ok hash? →
          sendEth env st =
            ({ st with status := "Sent! Tx: " ++ txHashOrPending hash?,
                       «to» := "", amountEth := "" }, true)))) := by
  have hguard : ¬ (st.web3 = false ∨ st.account = "") := by
    simp [hw, ha]
  constructor
  · intro haddr
    simp [sendEth, hguard, haddr]
  · intro haddr
    refine ⟨?_, ?_, ?_, ?_⟩
    · intro hempty
      simp [sendEth, hguard, haddr, hempty]
    · intro hparse
      by_cases hempty : st.amountEth = "" <;>
        simp [sendEth, hguard, haddr, hempty, hparse]
    · intro q hparse hle
      by_cases hempty : st.amountEth = "" <;>
        simp [sendEth, hguard, haddr, hempty, hparse, hle]
    · intro q hempty hparse hpos
      constructor
      · intro e herr
        simp [sendEth, hguard, haddr, hempty, hparse, not_le.mpr hpos, herr]
      · intro hash? hok
        simp [sendEth, hguard, haddr, hempty, hparse, not_le.mpr hpos, hok]

/-- C7 witness: in a connected state, `to = "not-an-address"` fails with the
invalid-address status and no submission; a valid recipient with a positive
amount and a successful submission clears the pending fields. -/
theorem c7_sendEth_validation_witness :
    sendEth (sampleSendEnv (.ok (some "0xTX")))
        { initialWalletState with
            web3 := true
            account := "0xAB"
            «to» := "not-an-address"
            amountEth := "0.01" } =
      ({ initialWalletState with
          web3 := true
          account := "0xAB"
          «to» := "not-an-address"
          amountEth := "0.01"
          status := "Invalid recipient address" }, false) ∧
    sendEth (sampleSendEnv (.ok (some "0xTX")))
        { initialWalletState with
            web3 := true
            account := "0xAB"
            «to» := "0x52908400098527886E0F7030069857D2E4169EE7"
            amountEth := "0.01" } =
      ({ initialWalletState with
          web3 := true
          account := "0xAB"
          «to» := ""
          amountEth := ""
          status := "Sent! Tx: 0xTX" }, true) := by
  constructor
  · exact (c7_sendEth_validation (sampleSendEnv (.ok (some "0xTX")))
      { initialWalletState with
          web3 := true
          account := "0xAB"
          «to» := "not-an-address"
          amountEth := "0.01" } rfl (by decide)).1 (by decide)
  · have h := ((c7_sendEth_validation (sampleSendEnv (.ok (some "0xTX")))
      { initialWalletState with
          web3 := true
          account := "0xAB"
          «to» := "0x52908400098527886E0F7030069857D2E4169EE7"
          amountEth := "0.01" } rfl (by decide)).2 (by decide)).2.2.2
      (1 / 100) (by decide) (by simp [sampleSendEnv]) (by norm_num)
    exact h.2 (some "0xTX") rfl

/-- C8 counterexample: two identical `"Network changed"` statuses, set 3
seconds apart (a reachable trace: two provider `chainChanged` pushes). The
second `setStatus` carries the value already displayed, so React does not
re-run the `[status]` effect and the timer is not reset: the second set is a
no-op and the message is already expired at `T + 7`, contradicting the
claimed unconditional debounce ("not expired at T+7s"). -/
theorem c8_status_auto_clear_counterexample :
    setStatusAt 3 "Network changed"
        (setStatusAt 0 "Network changed" ⟨initialWalletState, none⟩) =
      setStatusAt 0 "Network changed" ⟨initialWalletState, none⟩ ∧
    (runClockTo 7 (setStatusAt 3 "Network changed"
      (setStatusAt 0 "Network changed"
        ⟨initialWalletState, none⟩))).state.status = "" := by
  constructor
  · simp [setStatusAt, initialWalletState]
  · simp [setStatusAt, runClockTo, initialWalletState]

/-- C8 amended: a status message set at time `t` (differing from the one
displayed, else the set is a no-op) with no successor is cleared at `t + 7`
without touching any other field; a second, different status set at `t + 3`
resets (not queues) the one-shot timer, so the second message is still
present at every instant before `t + 3 + 7` — in particular it has not
expired at `t + 7` — and is cleared at `t + 3 + 7`; a repeated identical
status leaves the clock unchanged, so that message still expires at
`t + 7`. -/
theorem c8_status_auto_clear (st : WalletState) (t : ℕ) (m1 m2 : String)
    (h0 : m1 ≠ st.status) (h1 : m1 ≠ "") (h2 : m2 ≠ "") (hne : m2 ≠ m1) :
    runClockTo (t + 7) (setStatusAt t m1 ⟨st, none⟩) =
      ⟨{ st with status := "" }, none⟩ ∧
    (setStatusAt (t + 3) m2 (setStatusAt t m1 ⟨st, none⟩)).expiry
      = some (t + 3 + 7) ∧
    (∀ u, u < t + 3 + 7 →
      (runClockTo u (setStatusAt (t + 3) m2
        (setStatusAt t m1 ⟨st, none⟩))).state.status = m2) ∧
    (runClockTo (t + 7) (setStatusAt (t + 3) m2
      (setStatusAt t m1 ⟨st, none⟩))).state.status = m2 ∧
    (runClockTo (t + 3 + 7) (setStatusAt (t + 3) m2
      (setStatusAt t m1 ⟨st, none⟩))).state.status = "" ∧
    setStatusAt (t + 3) m1 (setStatusAt t m1 ⟨st, none⟩)
      = setStatusAt t m1 ⟨st, none⟩ := by
  refine ⟨?_, ?_, ?_, ?_, ?_, ?_⟩
  · simp [setStatusAt, runClockTo, h0, h1]
  · simp [setStatusAt, h0, h1, h2, hne]
  · intro u hu
    simp [setStatusAt, runClockTo, h0, h1, h2, hne, Nat.not_le.mpr hu]
  · have : ¬ (t + 3 + 7 ≤ t + 7) := by omega
    simp [setStatusAt, runClockTo, h0, h1, h2, hne, this]
  · simp [setStatusAt, runClockTo, h0, h1, h2, hne]
  · simp [setStatusAt, h0, h1]

/-- C8 witness: `"Connected"` set at time 0 is cleared at 7; with the
different `"Network changed"` set at 3, the message at every instant before
10 is `"Network changed"` (still there at 7) and it is cleared at 10. -/
theorem c8_status_auto_clear_witness :
    runClockTo 7 (setStatusAt 0 "Connected" ⟨initialWalletState, none⟩) =
      ⟨initialWalletState, none⟩ ∧
    (runClockTo 7 (setStatusAt 3 "Network changed"
      (setStatusAt 0 "Connected" ⟨initialWalletState, none⟩))).state.status
      = "Network changed" ∧
    (runClockTo 10 (setStatusAt 3 "Network changed"
      (setStatusAt 0 "Connected" ⟨initialWalletState, none⟩))).state.status
      = "" := by
  have h := c8_status_auto_clear initialWalletState 0 "Connected"
    "Network changed" (by decide) (by decide) (by decide) (by decide)
  exact ⟨h.1, h.2.2.2.1, h.2.2.2.2.1⟩

set_option maxRecDepth 8000

/-- C3: evaluation of the balance path at the spec's own example inputs. Raw
balance `1_234_567_000_000_000_000` does display as the double `1.234567`,
but raw balance `1_234_567_999_999_999_999` displays as the double
`1.234568` — a different, larger value that strictly exceeds the true
decimal value of the raw balance: `parseFloat` rounds
`1.234567999999999999` up to the double nearest `1.234568` before
`Math.floor(· * 1e6) / 1e6` can truncate, so the display is not truncated
toward zero and can overstate the balance. -/
theorem c3_displayedBalance_rounds_up_at_edge :
    displayedBalance 1234567000000000000 = round64F ⟨1234567, 1000000⟩ ∧
    displayedBalance 1234567999999999999 = round64F ⟨1234568, 1000000⟩ ∧
    round64F ⟨1234568, 1000000⟩ ≠ round64F ⟨1234567, 1000000⟩ ∧
    (1234567999999999999 : ℚ) / 10 ^ 18
      < (displayedBalance 1234567999999999999).toRat := by
  refine ⟨by decide, by decide, by decide, ?_⟩
  have hval : displayedBalance 1234567999999999999 =
      ⟨5559999984763539, 4503599627370496⟩ := by decide
  rw [hval]
  unfold Frac.toRat
  norm_num
